import Mathlib

/-!
Verification of the gz-mujoco converters (sdformat_mjcf and mjcf_to_sdformat).

The sdformat_mjcf joint/link converters are modelled from the specification
(their tests live in the repository; the converter bodies are modelled from
the spec's component contracts).  The mjcf_to_sdformat link converter
(`add_mjcf_geom_to_sdf` in converters/link.py) is embedded directly from its
source.  Real scalars stand for Python floats; the symbolic constants pi,
sqrt 2, sqrt 3, sqrt 6 let the test scenarios be settled exactly.
-/

namespace GzMujoco

/-- Vector of three real components, modelling ignition.math Vector3d. -/
structure Vector3d where
  x : ℝ
  y : ℝ
  z : ℝ

/-- Matrix of nine real entries, modelling a 3x3 rotation or inertia matrix. -/
structure Mat3 where
  m00 : ℝ
  m01 : ℝ
  m02 : ℝ
  m10 : ℝ
  m11 : ℝ
  m12 : ℝ
  m20 : ℝ
  m21 : ℝ
  m22 : ℝ

/-- Matrix product of two 3x3 matrices. -/
def Mat3.mul (A B : Mat3) : Mat3 :=
  ⟨A.m00 * B.m00 + A.m01 * B.m10 + A.m02 * B.m20,
   A.m00 * B.m01 + A.m01 * B.m11 + A.m02 * B.m21,
   A.m00 * B.m02 + A.m01 * B.m12 + A.m02 * B.m22,
   A.m10 * B.m00 + A.m11 * B.m10 + A.m12 * B.m20,
   A.m10 * B.m01 + A.m11 * B.m11 + A.m12 * B.m21,
   A.m10 * B.m02 + A.m11 * B.m12 + A.m12 * B.m22,
   A.m20 * B.m00 + A.m21 * B.m10 + A.m22 * B.m20,
   A.m20 * B.m01 + A.m21 * B.m11 + A.m22 * B.m21,
   A.m20 * B.m02 + A.m21 * B.m12 + A.m22 * B.m22⟩

/-- Transpose of a 3x3 matrix. -/
def Mat3.tr (A : Mat3) : Mat3 :=
  ⟨A.m00, A.m10, A.m20, A.m01, A.m11, A.m21, A.m02, A.m12, A.m22⟩

/-- Matrix applied to a vector: `R.rotate_vector(v)` of ignition.math. -/
def Mat3.rotate (A : Mat3) (v : Vector3d) : Vector3d :=
  ⟨A.m00 * v.x + A.m01 * v.y + A.m02 * v.z,
   A.m10 * v.x + A.m11 * v.y + A.m12 * v.z,
   A.m20 * v.x + A.m21 * v.y + A.m22 * v.z⟩

/-- Rotation about the x axis by angle `t` (radians). -/
noncomputable def rotX (t : ℝ) : Mat3 :=
  ⟨1, 0, 0,
   0, Real.cos t, -Real.sin t,
   0, Real.sin t, Real.cos t⟩

/-- Rotation about the y axis by angle `t` (radians). -/
noncomputable def rotY (t : ℝ) : Mat3 :=
  ⟨Real.cos t, 0, Real.sin t,
   0, 1, 0,
   -Real.sin t, 0, Real.cos t⟩

/-- Rotation about the z axis by angle `t` (radians). -/
noncomputable def rotZ (t : ℝ) : Mat3 :=
  ⟨Real.cos t, -Real.sin t, 0,
   Real.sin t, Real.cos t, 0,
   0, 0, 1⟩

/-- Rotation matrix of the roll-pitch-yaw Euler angles used by ignition.math
(Pose3d and Quaterniond take roll, pitch, yaw and compose Rz(yaw) * Ry(pitch)
* Rx(roll)). -/
noncomputable def eulerToRot (roll pitch yaw : ℝ) : Mat3 :=
  (rotZ yaw).mul ((rotY pitch).mul (rotX roll))

/-- Rigid pose: translation plus rotation, modelling ignition.math Pose3d. -/
structure Pose3d where
  pos : Vector3d
  rot : Mat3

/-- Pose built from six scalars as Pose3d(x, y, z, roll, pitch, yaw). -/
noncomputable def Pose3d.ofSix (x y z roll pitch yaw : ℝ) : Pose3d :=
  ⟨⟨x, y, z⟩, eulerToRot roll pitch yaw⟩

/-- Conversion of an angle from radians to degrees. -/
noncomputable def radToDeg (a : ℝ) : ℝ := a * 180 / Real.pi

/-- Mass matrix representation, modelling ignition.math MassMatrix3d: mass,
principal moments (ixx, iyy, izz) and products of inertia (ixy, ixz, iyz). -/
structure MassMatrix3d where
  mass : ℝ
  diag : Vector3d
  offDiag : Vector3d

/-- Symmetric moment-of-inertia matrix of a mass matrix: the two
representations are indexed so that Ixx = M(0,0), Iyy = M(1,1), Izz = M(2,2),
Ixy = M(0,1), Ixz = M(0,2), Iyz = M(1,2), as ignition.math MassMatrix3d.Moi
lays them out. -/
def MassMatrix3d.moi (m : MassMatrix3d) : Mat3 :=
  ⟨m.diag.x, m.offDiag.x, m.offDiag.y,
   m.offDiag.x, m.diag.y, m.offDiag.z,
   m.offDiag.y, m.offDiag.z, m.diag.z⟩

/-- Mass matrix read back from a moment-of-inertia matrix (the upper triangle
of the tensor), with the given mass: ignition.math MassMatrix3d(mass, moi). -/
def massMatrixOfMoi (mass : ℝ) (M : Mat3) : MassMatrix3d :=
  ⟨mass, ⟨M.m00, M.m11, M.m22⟩, ⟨M.m01, M.m02, M.m12⟩⟩

/-- Inertial: a mass matrix anchored at a pose, modelling ignition.math
Inertiald. -/
structure Inertiald where
  massMatrix : MassMatrix3d
  pose : Pose3d

/-- Moment of inertia of an Inertiald expressed in the base (link) frame:
ignition.math Inertiald.Moi rotates the mass-matrix tensor by the pose's
rotation, R * M * R_transpose. -/
def Inertiald.moi (i : Inertiald) : Mat3 :=
  (i.pose.rot.mul i.massMatrix.moi).mul i.pose.rot.tr

/-- Destination (MJCF) inertial element: mass, position, optional euler
orientation, and the six fullinertia entries (ixx, iyy, izz, ixy, ixz, iyz). -/
structure MjInertial where
  mass : ℝ
  pos : Vector3d
  euler : Option Vector3d
  ixx : ℝ
  iyy : ℝ
  izz : ℝ
  ixy : ℝ
  ixz : ℝ
  iyz : ℝ

/-- Modelled from the spec: the InertiaConverter step of add_link
(sdformat_mjcf converters/link.py is not in the source tree; only its tests
are).  When the inertial pose carries an orientation, the tensor is rotated
into the destination frame (R * M * R_transpose) before the fullinertia
entries are extracted, and the destination inertial's own orientation field
is cleared (absent) because the off-diagonal terms already encode the
rotation. -/
def convert_inertial (i : Inertiald) : MjInertial :=
  let M := i.moi
  ⟨i.massMatrix.mass, i.pose.pos, none,
   M.m00, M.m11, M.m22, M.m01, M.m02, M.m12⟩

/-- SDFormat joint types (sdformat_mjcf converters/joint.py JointType). -/
inductive JointType where
  | FIXED
  | REVOLUTE
  | CONTINUOUS
  | PRISMATIC
  | BALL
  | UNIVERSAL
  | FREE
  | GEARBOX
  | SCREW
deriving DecidableEq

/-- SDFormat joint axis: direction, optional lower/upper limits (absent means
unlimited), and the dynamics parameters (each optional in SDFormat, default
0). -/
structure JointAxis where
  xyz : Vector3d
  lower : Option ℝ
  upper : Option ℝ
  damping : ℝ
  friction : ℝ
  spring_stiffness : ℝ
  spring_reference : ℝ

/-- SDFormat joint: name, type, raw pose and axis. -/
structure Joint where
  name : String
  jtype : JointType
  pose : Pose3d
  axis : JointAxis

/-- Destination (MJCF) joint element: tag/type, position, optional axis,
limited flag with optional range, and dynamics attributes. -/
structure MjJoint where
  name : String
  mjtype : String
  pos : Vector3d
  axis : Option Vector3d
  limited : Bool
  range : Option (ℝ × ℝ)
  damping : ℝ
  frictionloss : ℝ
  stiffness : ℝ
  springref : ℝ

/-- The freejoint emitted when the source joint is absent. -/
def freejoint : MjJoint :=
  ⟨"freejoint", "freejoint", ⟨0, 0, 0⟩, none, false, none, 0, 0, 0, 0⟩

/-- Limit mapping for a single-axis joint: when both bounds are present the
destination is limited and the range carries the bounds, converted from
radians to degrees for a rotational joint and verbatim for a linear one;
otherwise the destination is unlimited. -/
noncomputable def convertLimits (rotational : Bool) (lower upper : Option ℝ) :
    Bool × Option (ℝ × ℝ) :=
  match lower, upper with
  | some lo, some hi =>
      if rotational then (true, some (radToDeg lo, radToDeg hi))
      else (true, some (lo, hi))
  | _, _ => (false, none)

/-- Single-axis destination joint built from the resolved pose `p` and the
resolved raw local axis `a`: the destination axis is the local axis rotated
by the resolved pose's rotation; damping, friction (to frictionloss) and
spring_stiffness (to stiffness) are copied verbatim; spring_reference is
converted from radians to degrees for a rotational joint and copied verbatim
otherwise; limits are mapped only when `useLimits` is set (CONTINUOUS drops
them). -/
noncomputable def mkAxisJoint (j : Joint) (tag : String) (rotational useLimits : Bool)
    (p : Pose3d) (a : Vector3d) : MjJoint :=
  let lim := if useLimits then convertLimits rotational j.axis.lower j.axis.upper
             else (false, none)
  ⟨j.name, tag, p.pos, some (p.rot.rotate a), lim.1, lim.2,
   j.axis.damping, j.axis.friction, j.axis.spring_stiffness,
   if rotational then radToDeg j.axis.spring_reference
   else j.axis.spring_reference⟩

/-- Modelled from the spec: add_joint of sdformat_mjcf converters/joint.py
(not in the source tree; only its tests are).  An absent source joint yields
a freejoint; FIXED yields no destination joint; REVOLUTE and CONTINUOUS map
to a hinge and PRISMATIC to a slide, each with the axis rotated by the
resolved pose's rotation, REVOLUTE converting limits radians-to-degrees,
CONTINUOUS dropping any limits, PRISMATIC keeping limits verbatim; BALL maps
to an axis-less ball joint; any other type is reported as unsupported.  The
injected pose and axis resolvers may fail and their failure aborts this
joint's conversion. -/
noncomputable def add_joint (joint : Option Joint)
    (pose_resolver : Joint → Except String Pose3d)
    (axis_xyz_resolver : Joint → Except String Vector3d) :
    Except String (Option MjJoint) :=
  match joint with
  | none => .ok (some freejoint)
  | some j =>
    match j.jtype with
    | .FIXED => .ok none
    | .REVOLUTE =>
        match pose_resolver j, axis_xyz_resolver j with
        | .ok p, .ok a => .ok (some (mkAxisJoint j "hinge" true true p a))
        | .error e, _ => .error e
        | _, .error e => .error e
    | .CONTINUOUS =>
        match pose_resolver j, axis_xyz_resolver j with
        | .ok p, .ok a => .ok (some (mkAxisJoint j "hinge" true false p a))
        | .error e, _ => .error e
        | _, .error e => .error e
    | .PRISMATIC =>
        match pose_resolver j, axis_xyz_resolver j with
        | .ok p, .ok a => .ok (some (mkAxisJoint j "slide" false true p a))
        | .error e, _ => .error e
        | _, .error e => .error e
    | .BALL =>
        match pose_resolver j with
        | .ok p =>
            .ok (some ⟨j.name, "ball", p.pos, none, false, none,
                       j.axis.damping, j.axis.friction, j.axis.spring_stiffness,
                       radToDeg j.axis.spring_reference⟩)
        | .error e => .error e
    | _ => .error "unsupported joint type"

/-- Axis of the destination joint of a conversion result, when one was
produced. -/
def resultAxis : Except String (Option MjJoint) → Option Vector3d
  | .ok (some m) => m.axis
  | _ => none

/-- Limited flag of the destination joint of a conversion result, when one
was produced. -/
def resultLimited : Except String (Option MjJoint) → Option Bool
  | .ok (some m) => some m.limited
  | _ => none

/-- Dynamics attributes (damping, frictionloss, stiffness, springref) of the
destination joint of a conversion result, when one was produced. -/
def resultDynamics : Except String (Option MjJoint) → Option (ℝ × ℝ × ℝ × ℝ)
  | .ok (some m) => some (m.damping, m.frictionloss, m.stiffness, m.springref)
  | _ => none

/-- Geom group reserved for collisions (mjcf_to_sdformat converters/link.py,
COLLISION_GEOM_GROUP). -/
def COLLISION_GEOM_GROUP : Int := 3

/-- Geom group reserved for visuals (mjcf_to_sdformat converters/link.py,
VISUAL_GEOM_GROUP). -/
def VISUAL_GEOM_GROUP : Int := 0

/-- MJCF geom element as read by add_mjcf_geom_to_sdf: optional name, type
string, and optional group classifier. -/
structure MjcfGeom where
  name : Option String
  gtype : String
  group : Option Int

/-- Six fullinertia values of an MJCF inertial, in MJCF attribute order
(ixx, iyy, izz, ixy, ixz, iyz). -/
structure FullInertia where
  ixx : ℝ
  iyy : ℝ
  izz : ℝ
  ixy : ℝ
  ixz : ℝ
  iyz : ℝ

/-- MJCF inertial element as read by add_mjcf_geom_to_sdf: optional pos,
optional euler, optional fullinertia, and the required mass. -/
structure MjcfInertial where
  pos : Option Vector3d
  euler : Option Vector3d
  fullinertia : Option FullInertia
  mass : ℝ

/-- SDFormat link under construction: a name, an optional inertial, and the
visuals and collisions that were added, in order.  The visual and collision
element types are abstract (they are produced by the geometry converter,
which is an external collaborator). -/
structure SdfLink (V C : Type) where
  name : String
  inertial : Option Inertiald
  visuals : List V
  collisions : List C

/-- add_mjcf_geom_to_sdf of mjcf_to_sdformat converters/link.py.  The
module-global counter NUMBER_OF_SDF_LINK is passed in and returned
explicitly (Python reads and writes a process-global that is never reset);
the geometry-converter collaborators add_mjcf_visual_to_sdf and
add_mjcf_collision_to_sdf, which each may return a value or None, are
parameters.  A geom with no name receives the synthetic name
type + "_" + str(counter) and the counter is incremented; a defined inertial
is converted through Inertiald with defaults pos [0,0,0], euler [0,0,0],
fullinertia [1,1,1,0,0,0] for absent fields; visuals and collisions are
added according to the group classifier. -/
noncomputable def add_mjcf_geom_to_sdf {V C : Type}
    (add_mjcf_visual_to_sdf : MjcfGeom → Option V)
    (add_mjcf_collision_to_sdf : MjcfGeom → Option C)
    (geom : MjcfGeom) (inertial : Option MjcfInertial)
    (NUMBER_OF_SDF_LINK : Nat) : SdfLink V C × Nat :=
  let named : String × Nat :=
    match geom.name with
    | some n => (n, NUMBER_OF_SDF_LINK)
    | none => (geom.gtype ++ "_" ++ toString NUMBER_OF_SDF_LINK,
               NUMBER_OF_SDF_LINK + 1)
  let inertialOut : Option Inertiald :=
    match inertial with
    | none => none
    | some inr =>
        let inertial_pos := inr.pos.getD ⟨0, 0, 0⟩
        let inertial_euler := inr.euler.getD ⟨0, 0, 0⟩
        let fullinertia := inr.fullinertia.getD ⟨1, 1, 1, 0, 0, 0⟩
        some ⟨⟨inr.mass,
               ⟨fullinertia.ixx, fullinertia.iyy, fullinertia.izz⟩,
               ⟨fullinertia.ixy, fullinertia.ixz, fullinertia.iyz⟩⟩,
              Pose3d.ofSix inertial_pos.x inertial_pos.y inertial_pos.z
                inertial_euler.x inertial_euler.y inertial_euler.z⟩
  let content : List V × List C :=
    match geom.group with
    | none => ((add_mjcf_visual_to_sdf geom).toList,
               (add_mjcf_collision_to_sdf geom).toList)
    | some g =>
        if g = VISUAL_GEOM_GROUP then ((add_mjcf_visual_to_sdf geom).toList, [])
        else if g = COLLISION_GEOM_GROUP then
          ([], (add_mjcf_collision_to_sdf geom).toList)
        else ([], [])
  (⟨named.1, inertialOut, content.1, content.2⟩, named.2)

/-- Pose resolver that resolves a joint's raw pose directly, as the testing
stand-ins do. -/
def nonthrowing_pose_resolver : Joint → Except String Pose3d :=
  fun j => .ok j.pose

/-- Axis resolver that resolves a joint's raw local axis directly, as the
testing stand-ins do. -/
def nonthrowing_axis_xyz_resolver : Joint → Except String Vector3d :=
  fun j => .ok j.axis.xyz

/-- The pose used throughout the test scenarios: position (1, 2, 3) and
rotation Euler(pi/2, pi/3, pi/4). -/
noncomputable def test_pose : Pose3d :=
  Pose3d.ofSix 1 2 3 (Real.pi / 2) (Real.pi / 3) (Real.pi / 4)

/-- Joint axis along (1, 0, 0) with no limits and the given dynamics. -/
def xAxisWithDynamics (damping friction stiffness springref : ℝ) : JointAxis :=
  ⟨⟨1, 0, 0⟩, none, none, damping, friction, stiffness, springref⟩

/-- C1: for every revolute or prismatic joint whose resolvers yield a local
axis `a` and a resolved pose with rotation R, the destination joint's axis is
R applied to `a`. -/
theorem claim_C1_axis_is_rotated_local_axis
    (j : Joint) (pr : Joint → Except String Pose3d)
    (ar : Joint → Except String Vector3d) (p : Pose3d) (a : Vector3d)
    (ht : j.jtype = .REVOLUTE ∨ j.jtype = .PRISMATIC)
    (hp : pr j = .ok p) (ha : ar j = .ok a) :
    resultAxis (add_joint (some j) pr ar) = some (p.rot.rotate a) := by
  rcases ht with ht | ht <;>
    simp [add_joint, ht, hp, ha, mkAxisJoint, resultAxis]

/-- Witness for C1 at the test scenario: a revolute joint with local axis
(1,0,0) and pose rotation Euler(pi/2, pi/3, pi/4) receives axis
R.rotate((1,0,0)). -/
theorem claim_C1_axis_is_rotated_local_axis_witness :
    resultAxis (add_joint
        (some ⟨"joint1", .REVOLUTE, test_pose, xAxisWithDynamics 0 0 0 0⟩)
        nonthrowing_pose_resolver nonthrowing_axis_xyz_resolver) =
      some ((eulerToRot (Real.pi / 2) (Real.pi / 3) (Real.pi / 4)).rotate
        ⟨1, 0, 0⟩) :=
  claim_C1_axis_is_rotated_local_axis
    ⟨"joint1", .REVOLUTE, test_pose, xAxisWithDynamics 0 0 0 0⟩
    nonthrowing_pose_resolver nonthrowing_axis_xyz_resolver
    test_pose ⟨1, 0, 0⟩ (Or.inl rfl) rfl rfl

/-- C3: for every joint successfully resolved, damping, friction and
spring_stiffness are copied verbatim (friction to frictionloss,
spring_stiffness to stiffness); spring_reference is converted from radians
to degrees for the rotational types REVOLUTE and CONTINUOUS and copied
verbatim for PRISMATIC; and radToDeg sends pi/6 to exactly 30 degrees. -/
theorem claim_C3_dynamics_mapping
    (j : Joint) (pr : Joint → Except String Pose3d)
    (ar : Joint → Except String Vector3d) (p : Pose3d) (a : Vector3d)
    (hp : pr j = .ok p) (ha : ar j = .ok a) :
    (j.jtype = .REVOLUTE ∨ j.jtype = .CONTINUOUS →
      resultDynamics (add_joint (some j) pr ar) =
        some (j.axis.damping, j.axis.friction, j.axis.spring_stiffness,
              radToDeg j.axis.spring_reference)) ∧
    (j.jtype = .PRISMATIC →
      resultDynamics (add_joint (some j) pr ar) =
        some (j.axis.damping, j.axis.friction, j.axis.spring_stiffness,
              j.axis.spring_reference)) ∧
    radToDeg (Real.pi / 6) = 30 := by
  refine ⟨fun ht => ?_, fun ht => ?_, ?_⟩
  · rcases ht with ht | ht <;>
      simp [add_joint, ht, hp, ha, mkAxisJoint, resultDynamics]
  · simp [add_joint, ht, hp, ha, mkAxisJoint, resultDynamics]
  · unfold radToDeg
    field_simp
    ring

/-- Witness for C3: the revolute test joint with dynamics (0.1, 0.2, 0.3,
spring_reference pi/6) yields (damping, frictionloss, stiffness) =
(0.1, 0.2, 0.3) and springref 30 degrees, and the prismatic test joint with
spring_reference 0.4 keeps springref 0.4 verbatim. -/
theorem claim_C3_dynamics_mapping_witness :
    resultDynamics (add_joint
        (some ⟨"joint1", .REVOLUTE, test_pose,
               xAxisWithDynamics 0.1 0.2 0.3 (Real.pi / 6)⟩)
        nonthrowing_pose_resolver nonthrowing_axis_xyz_resolver) =
      some (0.1, 0.2, 0.3, radToDeg (Real.pi / 6)) ∧
    radToDeg (Real.pi / 6) = 30 ∧
    resultDynamics (add_joint
        (some ⟨"joint1", .PRISMATIC, test_pose,
               xAxisWithDynamics 0.1 0.2 0.3 0.4⟩)
        nonthrowing_pose_resolver nonthrowing_axis_xyz_resolver) =
      some (0.1, 0.2, 0.3, 0.4) :=
  ⟨(claim_C3_dynamics_mapping
      ⟨"joint1", .REVOLUTE, test_pose,
       xAxisWithDynamics 0.1 0.2 0.3 (Real.pi / 6)⟩
      nonthrowing_pose_resolver nonthrowing_axis_xyz_resolver
      test_pose ⟨1, 0, 0⟩ rfl rfl).1 (Or.inl rfl),
   (claim_C3_dynamics_mapping
      ⟨"joint1", .REVOLUTE, test_pose,
       xAxisWithDynamics 0.1 0.2 0.3 (Real.pi / 6)⟩
      nonthrowing_pose_resolver nonthrowing_axis_xyz_resolver
      test_pose ⟨1, 0, 0⟩ rfl rfl).2.2,
   (claim_C3_dynamics_mapping
      ⟨"joint1", .PRISMATIC, test_pose,
       xAxisWithDynamics 0.1 0.2 0.3 0.4⟩
      nonthrowing_pose_resolver nonthrowing_axis_xyz_resolver
      test_pose ⟨1, 0, 0⟩ rfl rfl).2.1 rfl⟩

/-- C4: for every CONTINUOUS joint successfully resolved, whatever limit
values the source axis carries, the destination joint has limited = false
and no range (the limits are dropped). -/
theorem claim_C4_continuous_drops_limits
    (j : Joint) (pr : Joint → Except String Pose3d)
    (ar : Joint → Except String Vector3d) (p : Pose3d) (a : Vector3d)
    (ht : j.jtype = .CONTINUOUS) (hp : pr j = .ok p) (ha : ar j = .ok a) :
    resultLimited (add_joint (some j) pr ar) = some false := by
  simp [add_joint, ht, hp, ha, mkAxisJoint, resultLimited]

/-- Witness for C4: the continuous test joint with limits (-pi/4, pi/2) set
still comes out unlimited. -/
theorem claim_C4_continuous_drops_limits_witness :
    resultLimited (add_joint
        (some ⟨"joint1", .CONTINUOUS, test_pose,
               ⟨⟨1, 0, 0⟩, some (-(Real.pi / 4)), some (Real.pi / 2),
                0, 0, 0, 0⟩⟩)
        nonthrowing_pose_resolver nonthrowing_axis_xyz_resolver) =
      some false :=
  claim_C4_continuous_drops_limits
    ⟨"joint1", .CONTINUOUS, test_pose,
     ⟨⟨1, 0, 0⟩, some (-(Real.pi / 4)), some (Real.pi / 2), 0, 0, 0, 0⟩⟩
    nonthrowing_pose_resolver nonthrowing_axis_xyz_resolver
    test_pose ⟨1, 0, 0⟩ rfl rfl rfl

/-- C5: for every FIXED joint, the conversion succeeds and produces no
destination joint at all (the result is ok none, not an empty or default
joint). -/
theorem claim_C5_fixed_yields_no_joint
    (j : Joint) (pr : Joint → Except String Pose3d)
    (ar : Joint → Except String Vector3d) (ht : j.jtype = .FIXED) :
    add_joint (some j) pr ar = .ok none := by
  simp [add_joint, ht]

/-- Witness for C5 at a concrete fixed joint. -/
theorem claim_C5_fixed_yields_no_joint_witness :
    add_joint (some ⟨"joint1", .FIXED, test_pose, xAxisWithDynamics 0 0 0 0⟩)
        nonthrowing_pose_resolver nonthrowing_axis_xyz_resolver = .ok none :=
  claim_C5_fixed_yields_no_joint
    ⟨"joint1", .FIXED, test_pose, xAxisWithDynamics 0 0 0 0⟩
    nonthrowing_pose_resolver nonthrowing_axis_xyz_resolver rfl

/-- Product of the square roots of 2 and 3 is the square root of 6. -/
lemma sqrt_two_mul_sqrt_three : Real.sqrt 2 * Real.sqrt 3 = Real.sqrt 6 := by
  rw [← Real.sqrt_mul (by norm_num : (0 : ℝ) ≤ 2)]
  norm_num

/-- Closed form of the rotation matrix of Euler angles (pi/2, pi/3, pi/4). -/
lemma eulerToRot_pi2_pi3_pi4 :
    eulerToRot (Real.pi / 2) (Real.pi / 3) (Real.pi / 4) =
      ⟨Real.sqrt 2 / 4, Real.sqrt 6 / 4, Real.sqrt 2 / 2,
       Real.sqrt 2 / 4, Real.sqrt 6 / 4, -(Real.sqrt 2 / 2),
       -(Real.sqrt 3 / 2), 1 / 2, 0⟩ := by
  have h23 := sqrt_two_mul_sqrt_three
  simp only [eulerToRot, rotX, rotY, rotZ, Mat3.mul, Real.cos_pi_div_two,
    Real.sin_pi_div_two, Real.cos_pi_div_three, Real.sin_pi_div_three,
    Real.cos_pi_div_four, Real.sin_pi_div_four, Mat3.mk.injEq]
  norm_num
  exact ⟨by ring, by linear_combination h23 / 4, by ring,
         by linear_combination h23 / 4⟩

/-- C2: for every link inertial, the converted inertial's fullinertia entries
are the entries of the source tensor rotated into the destination frame
(R * M * R_transpose for the inertial pose's rotation R) and the destination
inertial's own orientation field is absent; and at the test scenario with
mass 384, principal moments (544, 2624, 3104), zero products and pose
rotation Euler(pi/2, pi/3, pi/4), the destination is exactly mass 384,
position (1, 2, 3), no orientation, and full tensor
(2604, 2604, 1064, -500, 260 * sqrt 6, 260 * sqrt 6). -/
theorem claim_C2_inertial_tensor_rotated_orientation_absent :
    (∀ i : Inertiald,
      (convert_inertial i).euler = none ∧
      (convert_inertial i).ixx =
        ((i.pose.rot.mul i.massMatrix.moi).mul i.pose.rot.tr).m00 ∧
      (convert_inertial i).iyy =
        ((i.pose.rot.mul i.massMatrix.moi).mul i.pose.rot.tr).m11 ∧
      (convert_inertial i).izz =
        ((i.pose.rot.mul i.massMatrix.moi).mul i.pose.rot.tr).m22 ∧
      (convert_inertial i).ixy =
        ((i.pose.rot.mul i.massMatrix.moi).mul i.pose.rot.tr).m01 ∧
      (convert_inertial i).ixz =
        ((i.pose.rot.mul i.massMatrix.moi).mul i.pose.rot.tr).m02 ∧
      (convert_inertial i).iyz =
        ((i.pose.rot.mul i.massMatrix.moi).mul i.pose.rot.tr).m12) ∧
    convert_inertial ⟨⟨384, ⟨544, 2624, 3104⟩, ⟨0, 0, 0⟩⟩, test_pose⟩ =
      ⟨384, ⟨1, 2, 3⟩, none, 2604, 2604, 1064, -500,
       260 * Real.sqrt 6, 260 * Real.sqrt 6⟩ := by
  constructor
  · exact fun i => ⟨rfl, rfl, rfl, rfl, rfl, rfl, rfl⟩
  · have h2 : Real.sqrt 2 * Real.sqrt 2 = 2 := Real.mul_self_sqrt (by norm_num)
    have h3 : Real.sqrt 3 * Real.sqrt 3 = 3 := Real.mul_self_sqrt (by norm_num)
    have h6 : Real.sqrt 6 * Real.sqrt 6 = 6 := Real.mul_self_sqrt (by norm_num)
    have h23 := sqrt_two_mul_sqrt_three
    simp only [convert_inertial, Inertiald.moi, MassMatrix3d.moi, test_pose,
      Pose3d.ofSix, eulerToRot_pi2_pi3_pi4, Mat3.mul, Mat3.tr,
      MjInertial.mk.injEq]
    norm_num
    exact ⟨by linear_combination 810 * h2 + 164 * h6,
           by linear_combination 136 * h3,
           by linear_combination (-742) * h2 + 164 * h6,
           by linear_combination (-68) * h23⟩

/-- C7 counterexample: converting the same one-unnamed-geom document twice in
one process does not give identical link names.  The first conversion starts
from the fresh process counter 0 and names the geom box_0; the second
conversion of the very same document continues from the counter the first
one left behind and names it box_1. -/
theorem claim_C7_counter_not_per_document_counterexample :
    (add_mjcf_geom_to_sdf (fun _ => (none : Option Unit))
        (fun _ => (none : Option Unit)) ⟨none, "box", none⟩ none 0).1.name ≠
    (add_mjcf_geom_to_sdf (fun _ => (none : Option Unit))
        (fun _ => (none : Option Unit)) ⟨none, "box", none⟩ none
        (add_mjcf_geom_to_sdf (fun _ => (none : Option Unit))
            (fun _ => (none : Option Unit)) ⟨none, "box", none⟩ none 0).2).1.name := by
  simp [add_mjcf_geom_to_sdf]
  decide

/-- C7 amended: the synthetic-name counter is a process-global that is never
reset between document conversions: an unnamed geom is named
type + "_" + str(c) where c is the incoming counter value, and the counter
comes back incremented, so it keeps growing across independent conversions
and repeat conversions of one document yield different synthetic names. -/
theorem claim_C7_counter_is_process_global {V C : Type}
    (vf : MjcfGeom → Option V) (cf : MjcfGeom → Option C)
    (geom : MjcfGeom) (inertial : Option MjcfInertial) (n : Nat)
    (hname : geom.name = none) :
    (add_mjcf_geom_to_sdf vf cf geom inertial n).1.name =
      geom.gtype ++ "_" ++ toString n ∧
    (add_mjcf_geom_to_sdf vf cf geom inertial n).2 = n + 1 := by
  refine ⟨?_, ?_⟩ <;> simp [add_mjcf_geom_to_sdf, hname]

/-- Witness for the amended C7: an unnamed box geom converted with incoming
counter 4 is named box_4 and the counter comes back as 5. -/
theorem claim_C7_counter_is_process_global_witness :
    (add_mjcf_geom_to_sdf (fun _ => (none : Option Unit))
        (fun _ => (none : Option Unit)) ⟨none, "box", none⟩ none 4).1.name =
      "box" ++ "_" ++ toString 4 ∧
    (add_mjcf_geom_to_sdf (fun _ => (none : Option Unit))
        (fun _ => (none : Option Unit)) ⟨none, "box", none⟩ none 4).2 = 4 + 1 :=
  claim_C7_counter_is_process_global (fun _ => none) (fun _ => none)
    ⟨none, "box", none⟩ none 4 rfl

/-- C6: the mass-matrix representation and the full-inertia-tensor
representation are exact duals (Ixx = M(0,0), Iyy = M(1,1), Izz = M(2,2),
Ixy = M(0,1), Ixz = M(0,2), Iyz = M(1,2)): reading the tensor of a mass
matrix back returns the original mass matrix, and building a mass matrix
from any symmetric tensor (written with its six independent entries) and
taking its tensor returns that tensor. -/
theorem claim_C6_tensor_mass_matrix_duality :
    (∀ m : MassMatrix3d,
      (m.moi.m00 = m.diag.x ∧ m.moi.m11 = m.diag.y ∧ m.moi.m22 = m.diag.z ∧
       m.moi.m01 = m.offDiag.x ∧ m.moi.m02 = m.offDiag.y ∧
       m.moi.m12 = m.offDiag.z) ∧
      massMatrixOfMoi m.mass m.moi = m) ∧
    ∀ mass a b c d e f : ℝ,
      (massMatrixOfMoi mass ⟨a, d, e, d, b, f, e, f, c⟩).moi =
        ⟨a, d, e, d, b, f, e, f, c⟩ := by
  refine ⟨fun m => ⟨⟨rfl, rfl, rfl, rfl, rfl, rfl⟩, rfl⟩,
          fun mass a b c d e f => rfl⟩

/-- C8: the converted link's content is partitioned by the geom's group
classifier: with the group unset the link receives both the visual and the
collision representation (each when the geometry converter produces one),
with group = 0 only the visual representation, and with group = 3 only the
collision representation. -/
theorem claim_C8_group_partitions_content {V C : Type}
    (vf : MjcfGeom → Option V) (cf : MjcfGeom → Option C)
    (geom : MjcfGeom) (inertial : Option MjcfInertial) (n : Nat) :
    (geom.group = none →
      (add_mjcf_geom_to_sdf vf cf geom inertial n).1.visuals = (vf geom).toList ∧
      (add_mjcf_geom_to_sdf vf cf geom inertial n).1.collisions = (cf geom).toList) ∧
    (geom.group = some 0 →
      (add_mjcf_geom_to_sdf vf cf geom inertial n).1.visuals = (vf geom).toList ∧
      (add_mjcf_geom_to_sdf vf cf geom inertial n).1.collisions = []) ∧
    (geom.group = some 3 →
      (add_mjcf_geom_to_sdf vf cf geom inertial n).1.visuals = [] ∧
      (add_mjcf_geom_to_sdf vf cf geom inertial n).1.collisions = (cf geom).toList) := by
  refine ⟨fun hg => ?_, fun hg => ?_, fun hg => ?_⟩ <;>
    simp [add_mjcf_geom_to_sdf, hg, VISUAL_GEOM_GROUP, COLLISION_GEOM_GROUP]

/-- Witness for C8: with a geometry converter producing visual 7 and
collision true, the group-unset geom receives both, the group-0 geom only
the visual, and the group-3 geom only the collision. -/
theorem claim_C8_group_partitions_content_witness :
    ((add_mjcf_geom_to_sdf (fun _ => some 7) (fun _ => some true)
        ⟨some "g", "box", none⟩ none 0).1.visuals = [7] ∧
     (add_mjcf_geom_to_sdf (fun _ => some 7) (fun _ => some true)
        ⟨some "g", "box", none⟩ none 0).1.collisions = [true]) ∧
    ((add_mjcf_geom_to_sdf (fun _ => some 7) (fun _ => some true)
        ⟨some "g", "box", some 0⟩ none 0).1.visuals = [7] ∧
     (add_mjcf_geom_to_sdf (fun _ => some 7) (fun _ => some true)
        ⟨some "g", "box", some 0⟩ none 0).1.collisions = []) ∧
    ((add_mjcf_geom_to_sdf (fun _ => some 7) (fun _ => some true)
        ⟨some "g", "box", some 3⟩ none 0).1.visuals = [] ∧
     (add_mjcf_geom_to_sdf (fun _ => some 7) (fun _ => some true)
        ⟨some "g", "box", some 3⟩ none 0).1.collisions = [true]) :=
  ⟨(claim_C8_group_partitions_content (fun _ => some 7) (fun _ => some true)
      ⟨some "g", "box", none⟩ none 0).1 rfl,
   (claim_C8_group_partitions_content (fun _ => some 7) (fun _ => some true)
      ⟨some "g", "box", some 0⟩ none 0).2.1 rfl,
   (claim_C8_group_partitions_content (fun _ => some 7) (fun _ => some true)
      ⟨some "g", "box", some 3⟩ none 0).2.2 rfl⟩

/-- C9: for every inertial source whose fullinertia attribute is absent (the
only way this converter receives no products of inertia), the products of
inertia of the mass matrix built for the link default to zero. -/
theorem claim_C9_products_default_to_zero {V C : Type}
    (vf : MjcfGeom → Option V) (cf : MjcfGeom → Option C)
    (geom : MjcfGeom) (inr : MjcfInertial) (n : Nat)
    (hfi : inr.fullinertia = none) :
    ((add_mjcf_geom_to_sdf vf cf geom (some inr) n).1.inertial).map
        (fun i => i.massMatrix.offDiag) = some ⟨0, 0, 0⟩ := by
  simp [add_mjcf_geom_to_sdf, hfi]

/-- Witness for C9 at a concrete inertial with mass 5 and no fullinertia. -/
theorem claim_C9_products_default_to_zero_witness :
    ((add_mjcf_geom_to_sdf (fun _ => (none : Option Unit))
        (fun _ => (none : Option Unit)) ⟨some "g", "box", none⟩
        (some ⟨none, none, none, 5⟩) 0).1.inertial).map
        (fun i => i.massMatrix.offDiag) = some ⟨0, 0, 0⟩ :=
  claim_C9_products_default_to_zero (fun _ => none) (fun _ => none)
    ⟨some "g", "box", none⟩ ⟨none, none, none, 5⟩ 0 rfl

/-- C10: for every geom whose group is set to a value other than 0 and other
than 3, the returned link contains neither a visual nor a collision element;
no error path exists (the embedded function is total and still returns a
link). -/
theorem claim_C10_other_groups_yield_empty_content {V C : Type}
    (vf : MjcfGeom → Option V) (cf : MjcfGeom → Option C)
    (geom : MjcfGeom) (inertial : Option MjcfInertial) (n : Nat) (g : Int)
    (hg : geom.group = some g) (h0 : g ≠ 0) (h3 : g ≠ 3) :
    (add_mjcf_geom_to_sdf vf cf geom inertial n).1.visuals = [] ∧
    (add_mjcf_geom_to_sdf vf cf geom inertial n).1.collisions = [] := by
  simp [add_mjcf_geom_to_sdf, hg, VISUAL_GEOM_GROUP, COLLISION_GEOM_GROUP,
        h0, h3]

/-- Witness for C10 at group 5. -/
theorem claim_C10_other_groups_yield_empty_content_witness :
    (add_mjcf_geom_to_sdf (fun _ => some 7) (fun _ => some true)
        ⟨some "g", "box", some 5⟩ none 0).1.visuals = [] ∧
    (add_mjcf_geom_to_sdf (fun _ => some 7) (fun _ => some true)
        ⟨some "g", "box", some 5⟩ none 0).1.collisions = [] :=
  claim_C10_other_groups_yield_empty_content (fun _ => some 7)
    (fun _ => some true) ⟨some "g", "box", some 5⟩ none 0 5 rfl
    (by decide) (by decide)

end GzMujoco
